import Mathlib

/-!
Verification development for the json-css-module-notes demo repository.

The repository consists of small JavaScript modules, each defining one custom
element whose constructor attaches a shadow root, applies styling (via an
imported CSS-module stylesheet, a constructed stylesheet, or an inline
style or link element in the shadow markup) and assigns literal HTML.
One module (demo1/fetcherElement.js) additionally starts a single module-level
fetch of a JSON configuration file and patches the rendered text when the
fetch settles.

This file gives a shallow embedding of those modules: a small DOM-tree model,
a model of stylesheet object identity and of the single module-level promise,
and one Lean function per custom-element constructor, translated line by line
from the JavaScript source.  Host-browser behavior that the source delegates
to (HTML parsing of literal markup, JSON parsing, promise settlement) is
modelled explicitly where the claims depend on it and is noted at each
definition.
-/

/-! ## String utilities

Structural-recursion implementations of the string operations the model needs
(whitespace splitting for class lists and rendered-text collapsing, suffix
tests for import specifiers), written so that every definition reduces in the
kernel.
-/

/-- Whitespace characters as in HTML's ASCII whitespace set (the subset that
appears in the repository's literals). -/
def isWsChar (c : Char) : Bool :=
  c == ' ' || c == '\n' || c == '\t' || c == '\r'

/-- Split a character list at whitespace, accumulating the current word. -/
def splitWsAux : List Char → List Char → List String
  | [], acc => [String.mk acc.reverse]
  | c :: cs, acc =>
    if isWsChar c then String.mk acc.reverse :: splitWsAux cs []
    else splitWsAux cs (c :: acc)

/-- The whitespace-separated words of a string (empty words dropped). -/
def wordList (s : String) : List String :=
  (splitWsAux s.data []).filter (fun t => t ≠ "")

/-- Collapse runs of whitespace to single spaces and trim both ends, as a
rendering engine does for text under default white-space handling.  Used to
state what text a shadow tree visibly renders. -/
def collapseWs (s : String) : String :=
  match wordList s with
  | [] => ""
  | w :: ws => ws.foldl (fun acc t => acc ++ " " ++ t) w

/-- Does one character list start with another? -/
def charsStartWith : List Char → List Char → Bool
  | [], _ => true
  | _ :: _, [] => false
  | a :: as, b :: bs => a == b && charsStartWith as bs

/-- Does string `s` end with `suffixStr`?  Used to classify import
specifiers by file extension. -/
def strEndsWith (s suffixStr : String) : Bool :=
  charsStartWith suffixStr.data.reverse s.data.reverse

/-! ## DOM model

A DOM fragment is a tree of element and text nodes.  `NodeList` is a bespoke
list so that all tree recursions are structural and kernel-reducible.
Assigning a literal markup string to `innerHTML` is modelled by the node tree
the HTML parser produces from that literal (the parser itself is host-browser
behavior); each constructor's tree below mirrors its source literal, element
for element and whitespace text node for whitespace text node.
-/

mutual
/-- A DOM node: an element with tag, attributes and children, or a text node. -/
inductive Node where
  | text (s : String) : Node
  | elem (tag : String) (attrs : List (String × String)) (children : NodeList) : Node
/-- A list of sibling DOM nodes. -/
inductive NodeList where
  | nil : NodeList
  | cons (hd : Node) (tl : NodeList) : NodeList
end

/-- Does an attribute list carry class `c` in its `class` attribute? -/
def hasClassAttr (attrs : List (String × String)) (c : String) : Bool :=
  match attrs.lookup "class" with
  | some v => (wordList v).contains c
  | none => false

mutual
/-- First node in preorder whose class attribute contains `c`; this is
`querySelector` restricted to the single-class selectors the source uses. -/
def Node.findByClass (c : String) : Node → Option Node
  | .text _ => none
  | .elem t a kids =>
    if hasClassAttr a c then some (.elem t a kids)
    else NodeList.findByClass c kids
/-- Preorder class search over a sibling list. -/
def NodeList.findByClass (c : String) : NodeList → Option Node
  | .nil => none
  | .cons n rest =>
    match Node.findByClass c n with
    | some m => some m
    | none => NodeList.findByClass c rest
end

mutual
/-- Concatenated text of a node's subtree. -/
def Node.textContent : Node → String
  | .text s => s
  | .elem _ _ kids => NodeList.textContent kids
/-- Concatenated text of a sibling list. -/
def NodeList.textContent : NodeList → String
  | .nil => ""
  | .cons n rest => Node.textContent n ++ NodeList.textContent rest
end

mutual
/-- Replace the content of the first preorder node of class `c` by the text
`s`, returning the updated node and whether a node was found.  This is the
effect of `querySelector(selector).innerText = s` on the tree. -/
def Node.setTextByClass (c s : String) : Node → Node × Bool
  | .text t => (.text t, false)
  | .elem tg a kids =>
    if hasClassAttr a c then (.elem tg a (.cons (.text s) .nil), true)
    else
      let r := NodeList.setTextByClass c s kids
      (.elem tg a r.1, r.2)
/-- Replacement over a sibling list; only the first match is modified. -/
def NodeList.setTextByClass (c s : String) : NodeList → NodeList × Bool
  | .nil => (.nil, false)
  | .cons n rest =>
    let rn := Node.setTextByClass c s n
    if rn.2 then (.cons rn.1 rest, true)
    else
      let rr := NodeList.setTextByClass c s rest
      (.cons rn.1 rr.1, rr.2)
end

mutual
/-- Does a subtree contain a style-bearing element: a `style` element or a
`link` element with `rel="stylesheet"`? -/
def Node.containsStyleElem : Node → Bool
  | .text _ => false
  | .elem tg a kids =>
    tg == "style" || (tg == "link" && a.lookup "rel" == some "stylesheet")
      || NodeList.containsStyleElem kids
/-- Style-bearing element search over a sibling list. -/
def NodeList.containsStyleElem : NodeList → Bool
  | .nil => false
  | .cons n rest => Node.containsStyleElem n || NodeList.containsStyleElem rest
end

/-! ## JSON values and host coercions -/

mutual
/-- A JSON value, the result of the host's `JSON.parse` or of importing a
JSON module.  Element and field lists are bespoke so that all recursions
over values are structural and kernel-reducible. -/
inductive Json where
  | str (s : String) : Json
  | num (n : Int) : Json
  | bool (b : Bool) : Json
  | null : Json
  | arr (elts : JsonList) : Json
  | obj (fields : JsonFields) : Json
/-- The elements of a JSON array. -/
inductive JsonList where
  | nil : JsonList
  | cons (hd : Json) (tl : JsonList) : JsonList
/-- The key-value fields of a JSON object. -/
inductive JsonFields where
  | nil : JsonFields
  | cons (key : String) (val : Json) (tl : JsonFields) : JsonFields
end

/-- First field with the given key, if any. -/
def JsonFields.lookup (k : String) : JsonFields → Option Json
  | .nil => none
  | .cons key val tl => if key == k then some val else JsonFields.lookup k tl

/-- JavaScript property access `j.k`.  On `null` it throws a TypeError
(`Except.error`); on an object it yields the field's value, or `undefined`
(modelled as `none`) when the key is absent; on any other value (string,
number, boolean, array) it yields `undefined` for the non-index keys the
source uses. -/
def Json.get (j : Json) (k : String) : Except Unit (Option Json) :=
  match j with
  | .null => .error ()
  | .obj fields => .ok (fields.lookup k)
  | _ => .ok none

mutual
/-- JavaScript string coercion of a JSON value, as applied by assignments to
`innerText` and by template-literal interpolation: strings verbatim,
`null`/booleans/numbers by their literal spelling, arrays by comma-joining
their elements, plain objects as "[object Object]". -/
def jsToDOMString : Json → String
  | .str s => s
  | .num n => toString n
  | .bool true => "true"
  | .bool false => "false"
  | .null => "null"
  | .arr elts => jsArrayJoin elts
  | .obj _ => "[object Object]"
/-- `Array.prototype.join(",")` as used by array-to-string coercion:
elements comma-separated, `null` elements rendered empty. -/
def jsArrayJoin : JsonList → String
  | .nil => ""
  | .cons x tl =>
    (match x with
     | .null => ""
     | v => jsToDOMString v)
    ++ (match tl with
        | .nil => ""
        | _ => "," ++ jsArrayJoin tl)
end

/-- Coercion of a possibly-`undefined` JavaScript value to a DOM string. -/
def jsToDOMStringOpt : Option Json → String
  | none => "undefined"
  | some v => jsToDOMString v

/-- A string that the HTML parser turns into a single text node when it is
interpolated into markup: no tag-opening or entity characters.  The
`JSONModuleTestElement` tree below models interpolation for such strings. -/
def htmlInert (s : String) : Bool :=
  s.data.all (fun c => c ≠ '<' && c ≠ '&')

/-! ## Shadow roots, element instances and the page world

`World` tracks the observable page-level effects the claims are about: how
many `fetch()` calls have been evaluated, how many continuations are attached
to the module-level `configPromise`, and the `CSSStyleSheet` objects created
so far.  A stylesheet object's identity is its index in `World.sheets`; the
stored string is the CSS source it was filled from.
-/

/-- The mode of an attached shadow root. -/
inductive ShadowMode where
  | opened : ShadowMode
  | closed : ShadowMode
deriving DecidableEq, Repr

/-- A shadow root: its mode, its adopted stylesheet identities (in adoption
order) and its child tree. -/
structure ShadowRoot where
  mode : ShadowMode
  adoptedStyleSheets : List Nat
  children : NodeList

/-- A constructed custom-element instance: the shadow root its constructor
attached (stored by every constructor in `this.shadow`). -/
structure ElementInstance where
  shadow : ShadowRoot

/-- The `shadowRoot` DOM property of the host element: `null` (`none`) for a
closed shadow root, the root itself for an open one. -/
def ElementInstance.shadowRootProp (e : ElementInstance) : Option ShadowRoot :=
  match e.shadow.mode with
  | .closed => none
  | .opened => some e.shadow

/-- Page-level state observable across constructor calls. -/
structure World where
  fetchCount : Nat
  configContinuations : Nat
  sheets : List String

/-- The world before any module of the page has been evaluated. -/
def World.init : World := { fetchCount := 0, configContinuations := 0, sheets := [] }

/-- Allocate a fresh `CSSStyleSheet` object filled with `rules` (the effect
of `new CSSStyleSheet()` followed by `replaceSync(rules)`), returning its
identity. -/
def allocSheet (rules : String) (w : World) : Nat × World :=
  (w.sheets.length, { w with sheets := w.sheets ++ [rules] })

/-- Loading a CSS module allocates the imported stylesheet object exactly
once per module (the module loader dedupes imports); `assetRules` is the
text of the imported `.css` asset, which is not part of the JavaScript
source. -/
def loadCssModule (assetRules : String) (w : World) : Nat × World :=
  allocSheet assetRules w

/-- Construct `n` instances with the same constructor, threading the world. -/
def constructN (f : World → ElementInstance × World) : Nat → World → List ElementInstance × World
  | 0, w => ([], w)
  | n + 1, w =>
    let r := f w
    let rest := constructN f n r.2
    (r.1 :: rest.1, rest.2)

/-! ## demo1/cssModuleElement.js -/

namespace Demo1

/-- Shadow markup of demo1's `CSSModuleTestElement`: the parse of the literal
`<div class="outer-container text-container">This text should be styled</div>`. -/
def CSSModuleTestElement.shadowChildren : NodeList :=
  .cons (.elem "div" [("class", "outer-container text-container")]
    (.cons (.text "This text should be styled") .nil)) .nil

/-- The instance demo1's `CSSModuleTestElement` constructor produces, given
the identity of the module-imported stylesheet. -/
def CSSModuleTestElement.instanceAt (sheet : Nat) : ElementInstance :=
  { shadow :=
    { mode := .closed
      adoptedStyleSheets := [sheet]
      children := CSSModuleTestElement.shadowChildren } }

/-- Constructor of demo1's `CSSModuleTestElement` (cssModuleElement.js lines
4-11): attach a closed shadow root, adopt the single module-imported sheet,
assign the literal markup.  No page-level effect. -/
def CSSModuleTestElement.construct (sheet : Nat) (w : World) : ElementInstance × World :=
  (CSSModuleTestElement.instanceAt sheet, w)

/-- Import specifiers of demo1/cssModuleElement.js (line 1). -/
def CSSModuleTestElement.moduleImports : List String := ["./styles.css"]

/-! ## demo1/fetcherElement.js -/

/-- CSS source passed to `replaceSync` in the `FetchTestElement` constructor
(fetcherElement.js lines 12-30). -/
def FetchTestElement.sheetRules : String :=
  "\n        .outer-container \x7b\n            display:inline-block;\n            margin: 0.2em;\n            border: 2px solid red;\n        \x7d\n        \n        .text-container \x7b\n            padding-right: 0.3em;\n            font-size: 2em;\n            font-style: italic;\n            font-family: \x27Impact\x27;\n            background: linear-gradient(to right, orange , yellow, green, cyan, blue, violet);\n            background-clip: text;\n            -webkit-background-clip: text;\n            text-fill-color: transparent;\n            -webkit-text-fill-color: transparent;\n        \x7d\n        "

/-- Shadow markup assigned synchronously by the `FetchTestElement`
constructor (lines 34-38): an outer container holding an empty
text container, with the literal's inter-element whitespace text nodes. -/
def FetchTestElement.shadowChildren : NodeList :=
  .cons (.text "\n            ")
    (.cons (.elem "div" [("class", "outer-container")]
      (.cons (.text "\n                ")
        (.cons (.elem "div" [("class", "text-container")] .nil)
          (.cons (.text "\n            ") .nil))))
      (.cons (.text "\n            ") .nil))

/-- The instance the `FetchTestElement` constructor produces, given the
identity of the `CSSStyleSheet` it constructs. -/
def FetchTestElement.instanceAt (sheet : Nat) : ElementInstance :=
  { shadow :=
    { mode := .closed
      adoptedStyleSheets := [sheet]
      children := FetchTestElement.shadowChildren } }

/-- Constructor of `FetchTestElement` (lines 7-44): attach a closed shadow
root, construct and fill a fresh stylesheet, adopt it, assign the literal
markup, and register one fulfillment continuation on the module-level
`configPromise` (lines 40-43).  No `fetch()` is evaluated here. -/
def FetchTestElement.construct (w : World) : ElementInstance × World :=
  let alloc := allocSheet FetchTestElement.sheetRules w
  (FetchTestElement.instanceAt alloc.1,
   { alloc.2 with configContinuations := alloc.2.configContinuations + 1 })

/-- Module evaluation of fetcherElement.js runs its top level once per page
load: the single `fetch("./displayText.json")` call (line 1) is evaluated
exactly then.  (The `.then` on line 2 merely derives `configPromise`.) -/
def evalFetcherModuleTopLevel (w : World) : World :=
  { w with fetchCount := w.fetchCount + 1 }

/-- Number of `fetch()` call sites evaluated by the top level of
fetcherElement.js per page load. -/
def FetchTestElement.topLevelFetchCalls : Nat := 1

/-- Import specifiers of fetcherElement.js: none (it uses `fetch`, not
`import`). -/
def FetchTestElement.moduleImports : List String := []

/-- A reaction registered on a promise by a `.then(...)` call: which of the
two handler slots the call fills. -/
structure PromiseReaction where
  hasFulfillHandler : Bool
  hasRejectHandler : Bool

/-- The reactions through which `configPromise` is derived from the
`fetch()` promise: the single one-argument `.then` at lines 2-4.  No
`.catch` and no two-argument `.then` appears anywhere. -/
def configPromiseChainReactions : List PromiseReaction :=
  [{ hasFulfillHandler := true, hasRejectHandler := false }]

/-- The reaction each `FetchTestElement` constructor registers on
`configPromise`: the one-argument `.then` at lines 40-43. -/
def FetchTestElement.configReaction : PromiseReaction :=
  { hasFulfillHandler := true, hasRejectHandler := false }

/-- How the module-level fetch-and-read-body chain settles: with the body
text, or rejected (network failure of `fetch` or of `text()`). -/
inductive FetchOutcome where
  | success (bodyText : String) : FetchOutcome
  | failure : FetchOutcome

/-- An error escaping unhandled to the host when `configPromise` settles
against one element, by its source in fetcherElement.js:
the fetch/`text()` rejection passing through the handler-less chain, the
`JSON.parse` exception at line 41, the TypeError thrown by
`displayTextConfig.displayText` at line 42 when the parsed config is
`null`, or the TypeError thrown by the `innerText` assignment at line 42
when `querySelector` returned null. -/
inductive ReactError where
  | fetchRejected : ReactError
  | parseError : ReactError
  | configAccessError : ReactError
  | nullQueryTypeError : ReactError
deriving DecidableEq, BEq, Repr

/-- Result of settling `configPromise` against one constructed element: the
element's shadow children afterwards, the text written to its text container
(if any), and the error that escaped unhandled to the host (if any). -/
structure ReactResult where
  children : NodeList
  wroteText : Option String
  error : Option ReactError

/-- The continuation registered at fetcherElement.js lines 40-43, applied to
the settlement of the module-level chain.  On rejection nothing runs (the
`.then` registered no rejection handler) and the rejection escapes.  On
fulfillment, `JSON.parse` runs (modelled by the host parse function
`parse`; a `none` result is a parse exception, uncaught in the handler);
then line 42 evaluates in source order: the `querySelector` call (the
assignment target), then the right-hand side `displayTextConfig.displayText`
(throwing a TypeError when the config is `null`), then the `innerText`
assignment itself, which throws a TypeError if the target is null.  Every
thrown error leaves the shadow untouched and escapes unhandled. -/
def FetchTestElement.reactToConfig (parse : String → Option Json)
    (children : NodeList) : FetchOutcome → ReactResult
  | .failure => { children := children, wroteText := none, error := some .fetchRejected }
  | .success body =>
    match parse body with
    | none => { children := children, wroteText := none, error := some .parseError }
    | some cfg =>
      let target := NodeList.findByClass "text-container" children
      match cfg.get "displayText" with
      | .error _ =>
        { children := children, wroteText := none, error := some .configAccessError }
      | .ok v =>
        match target with
        | none =>
          { children := children, wroteText := none, error := some .nullQueryTypeError }
        | some _ =>
          let s := jsToDOMStringOpt v
          { children := (NodeList.setTextByClass "text-container" s children).1
            wroteText := some s
            error := none }

/-- A DOM mutation of one element's shadow during a page load. -/
inductive RenderEvent where
  | initialRender : RenderEvent
  | textUpdate (s : String) : RenderEvent

/-- All shadow mutations one `FetchTestElement` instance performs during a
page load: the constructor's synchronous render, then, if the single
registered continuation runs (`outcome = some o`) and completes, one text
patch.  Nothing else in the module touches the shadow. -/
def FetchTestElement.renderTrace (parse : String → Option Json)
    (children0 : NodeList) (outcome : Option FetchOutcome) : List RenderEvent :=
  RenderEvent.initialRender ::
    (match outcome with
     | none => []
     | some o =>
       match (FetchTestElement.reactToConfig parse children0 o).wroteText with
       | none => []
       | some s => [RenderEvent.textUpdate s])

end Demo1

/-! ## demo1/linkInShadowElement.js, jsonModuleElement.js, styleElement.js -/

namespace Demo1

/-- Shadow markup of demo1's `LinkTestElement`: a stylesheet link followed by
the styled container div. -/
def LinkTestElement.shadowChildren : NodeList :=
  .cons (.elem "link" [("rel", "stylesheet"), ("href", "styles.css")] .nil)
    (.cons (.elem "div" [("class", "outer-container text-container")]
      (.cons (.text "This text should be styled") .nil)) .nil)

/-- The instance demo1's `LinkTestElement` constructor produces. -/
def LinkTestElement.instanceAt : ElementInstance :=
  { shadow :=
    { mode := .closed
      adoptedStyleSheets := []
      children := LinkTestElement.shadowChildren } }

/-- Constructor of demo1's `LinkTestElement` (lines 2-8): attach a closed
shadow root and assign the literal markup.  No stylesheet object is
constructed and no page-level effect occurs. -/
def LinkTestElement.construct (w : World) : ElementInstance × World :=
  (LinkTestElement.instanceAt, w)

/-- Import specifiers of the `LinkTestElement` module: none. -/
def LinkTestElement.moduleImports : List String := []

/-- CSS source passed to `replaceSync` in the `JSONModuleTestElement`
constructor (the same rule text as in `FetchTestElement`). -/
def JSONModuleTestElement.sheetRules : String :=
  "\n        .outer-container \x7b\n            display:inline-block;\n            margin: 0.2em;\n            border: 2px solid red;\n        \x7d\n        \n        .text-container \x7b\n            padding-right: 0.3em;\n            font-size: 2em;\n            font-style: italic;\n            font-family: \x27Impact\x27;\n            background: linear-gradient(to right, orange , yellow, green, cyan, blue, violet);\n            background-clip: text;\n            -webkit-background-clip: text;\n            text-fill-color: transparent;\n            -webkit-text-fill-color: transparent;\n        \x7d\n        "

/-- Shadow markup of `JSONModuleTestElement` with the coerced
`displayText` value interpolated into the text container.  Modelled for
values the parser keeps as a lone text node (see `htmlInert`). -/
def JSONModuleTestElement.shadowChildren (displayText : String) : NodeList :=
  .cons (.text "\n        ")
    (.cons (.elem "div" [("class", "outer-container")]
      (.cons (.text "\n            ")
        (.cons (.elem "div" [("class", "text-container")]
          (.cons (.text displayText) .nil))
          (.cons (.text "\n        ") .nil))))
      (.cons (.text "\n        ") .nil))

/-- The instance the `JSONModuleTestElement` constructor produces, given the
identity of the `CSSStyleSheet` it constructs and the interpolated text. -/
def JSONModuleTestElement.instanceAt (sheet : Nat) (displayText : String) : ElementInstance :=
  { shadow :=
    { mode := .closed
      adoptedStyleSheets := [sheet]
      children := JSONModuleTestElement.shadowChildren displayText } }

/-- The string the `JSONModuleTestElement` constructor interpolates: the
coerced `displayTextConfig.displayText`.  A `null` config would make the
property access throw mid-constructor in the source (after the stylesheet
is adopted, before the markup is assigned), a run that produces no usable
instance; the embedding totalizes that branch, and every theorem about the
rendered text constrains the config to an object through an `Except.ok`
hypothesis, where the embedding is faithful. -/
def JSONModuleTestElement.displayTextOf (displayTextConfig : Json) : String :=
  match displayTextConfig.get "displayText" with
  | .ok v => jsToDOMStringOpt v
  | .error _ => "undefined"

/-- Constructor of `JSONModuleTestElement` (jsonModuleElement.js lines
14-48): attach a closed shadow root, construct and fill a fresh stylesheet,
adopt it, read `displayTextConfig.displayText` from the module-imported JSON
value, and assign the markup with that value interpolated.  No continuation
is registered and no fetch occurs. -/
def JSONModuleTestElement.construct (displayTextConfig : Json) (w : World) :
    ElementInstance × World :=
  let alloc := allocSheet JSONModuleTestElement.sheetRules w
  let displayText := JSONModuleTestElement.displayTextOf displayTextConfig
  (JSONModuleTestElement.instanceAt alloc.1 displayText, alloc.2)

/-- Import specifiers of the `JSONModuleTestElement` module (line 11 of the
packed source): the JSON configuration document. -/
def JSONModuleTestElement.moduleImports : List String := ["./displayText.json"]

/-- CSS source of the inline `<style>` element in `StyleTestElement`'s
shadow markup. -/
def StyleTestElement.styleRules : String :=
  "\n            .outer-container \x7b\n                display:inline-block;\n                margin: 0.2em;\n                border: 2px solid red;\n            \x7d\n            \n            .text-container \x7b\n                padding-right: 0.3em;\n                font-size: 2em;\n                font-style: italic;\n                font-family: \x27Impact\x27;\n                background: linear-gradient(to right, orange , yellow, green, cyan, blue, violet);\n                background-clip: text;\n                -webkit-background-clip: text;\n                text-fill-color: transparent;\n                -webkit-text-fill-color: transparent;\n            \x7d\n            "

/-- Shadow markup of `StyleTestElement`: an inline `style` element followed
by the styled container div. -/
def StyleTestElement.shadowChildren : NodeList :=
  .cons (.elem "style" [] (.cons (.text StyleTestElement.styleRules) .nil))
    (.cons (.elem "div" [("class", "outer-container text-container")]
      (.cons (.text "This text should be styled") .nil)) .nil)

/-- The instance `StyleTestElement`'s constructor produces. -/
def StyleTestElement.instanceAt : ElementInstance :=
  { shadow :=
    { mode := .closed
      adoptedStyleSheets := []
      children := StyleTestElement.shadowChildren } }

/-- Constructor of `StyleTestElement` (lines 53-77): attach a closed shadow
root and assign the literal markup containing the inline style element. -/
def StyleTestElement.construct (w : World) : ElementInstance × World :=
  (StyleTestElement.instanceAt, w)

/-- Import specifiers of the `StyleTestElement` module: none. -/
def StyleTestElement.moduleImports : List String := []

end Demo1

/-! ## demo2/cssModuleCatElement.js and demo2/cssModuleElement.js -/

namespace Demo2

/-- Shadow markup of `CSSModuleCatElement`. -/
def CSSModuleCatElement.shadowChildren : NodeList :=
  .cons (.text "\n        ")
    (.cons (.elem "div" [("class", "cat10")] .nil)
      (.cons (.text "\n        ") .nil))

/-- The instance `CSSModuleCatElement`'s constructor produces, given the
identity of the module-imported stylesheet. -/
def CSSModuleCatElement.instanceAt (sheet : Nat) : ElementInstance :=
  { shadow :=
    { mode := .closed
      adoptedStyleSheets := [sheet]
      children := CSSModuleCatElement.shadowChildren } }

/-- Constructor of `CSSModuleCatElement` (cssModuleCatElement.js lines 4-12):
attach a closed shadow root, adopt the single module-imported sheet, assign
the literal markup. -/
def CSSModuleCatElement.construct (sheet : Nat) (w : World) : ElementInstance × World :=
  (CSSModuleCatElement.instanceAt sheet, w)

/-- Import specifiers of cssModuleCatElement.js (line 1). -/
def CSSModuleCatElement.moduleImports : List String := ["./big_styles.css"]

/-- Shadow markup of demo2's `CSSModuleTestElement`: the styled text
container plus an empty cat container, with the literal's whitespace. -/
def CSSModuleTestElement.shadowChildren : NodeList :=
  .cons (.text "\n        ")
    (.cons (.elem "div" [("class", "outer-container")]
      (.cons (.text "\n            ")
        (.cons (.elem "div" [("class", "text-container")]
          (.cons (.text "This text should be styled") .nil))
          (.cons (.text "\n            ")
            (.cons (.elem "div" [("class", "cat-container")] .nil)
              (.cons (.text "\n        ") .nil))))))
      (.cons (.text "\n        ") .nil))

/-- The instance demo2's `CSSModuleTestElement` constructor produces. -/
def CSSModuleTestElement.instanceAt (sheet : Nat) : ElementInstance :=
  { shadow :=
    { mode := .closed
      adoptedStyleSheets := [sheet]
      children := CSSModuleTestElement.shadowChildren } }

/-- Constructor of demo2's `CSSModuleTestElement` (cssModuleElement.js lines
4-15): attach a closed shadow root, adopt the single module-imported sheet,
assign the literal markup. -/
def CSSModuleTestElement.construct (sheet : Nat) (w : World) : ElementInstance × World :=
  (CSSModuleTestElement.instanceAt sheet, w)

/-- Import specifiers of demo2/cssModuleElement.js (line 1). -/
def CSSModuleTestElement.moduleImports : List String := ["./linkTest.css"]

end Demo2

/-! ## Unnamed variants (src/unnamed/part_000 and part_001) -/

namespace Unnamed

/-- Shadow markup of the unnamed `CSSModuleTestElement` variant. -/
def CSSModuleTestElement.shadowChildren : NodeList :=
  .cons (.text "\n        ")
    (.cons (.elem "div" [("class", "outer-container")]
      (.cons (.text "\n            ")
        (.cons (.elem "div" [("class", "text-container")]
          (.cons (.text "This text should be styled") .nil))
          (.cons (.text "\n        ") .nil))))
      (.cons (.text "\n        ") .nil))

/-- The instance the unnamed `CSSModuleTestElement` constructor produces. -/
def CSSModuleTestElement.instanceAt (sheet : Nat) : ElementInstance :=
  { shadow :=
    { mode := .closed
      adoptedStyleSheets := [sheet]
      children := CSSModuleTestElement.shadowChildren } }

/-- Constructor of the unnamed `CSSModuleTestElement` variant (part_000
lines 4-14): attach a closed shadow root, adopt the single module-imported
sheet, assign the literal markup. -/
def CSSModuleTestElement.construct (sheet : Nat) (w : World) : ElementInstance × World :=
  (CSSModuleTestElement.instanceAt sheet, w)

/-- Import specifiers of the unnamed CSS-module variant (part_000 line 1). -/
def CSSModuleTestElement.moduleImports : List String := ["./styles.css"]

/-- Shadow markup of the unnamed `LinkTestElement` variant. -/
def LinkTestElement.shadowChildren : NodeList :=
  .cons (.text "\n        ")
    (.cons (.elem "link" [("rel", "stylesheet"), ("href", "linkTest.css")] .nil)
      (.cons (.text "\n        ")
        (.cons (.elem "div" [("class", "outer-container")]
          (.cons (.text "\n            ")
            (.cons (.elem "div" [("class", "text-container")]
              (.cons (.text "This text should be styled") .nil))
              (.cons (.text "\n            ")
                (.cons (.elem "div" [("class", "cat-container")] .nil)
                  (.cons (.text "\n        ") .nil))))))
          (.cons (.text "\n        ") .nil))))

/-- The instance the unnamed `LinkTestElement` constructor produces. -/
def LinkTestElement.instanceAt : ElementInstance :=
  { shadow :=
    { mode := .closed
      adoptedStyleSheets := []
      children := LinkTestElement.shadowChildren } }

/-- Constructor of the unnamed `LinkTestElement` variant (part_001 lines
2-13): attach a closed shadow root, assign the literal markup. -/
def LinkTestElement.construct (w : World) : ElementInstance × World :=
  (LinkTestElement.instanceAt, w)

/-- Import specifiers of the unnamed link variant: none. -/
def LinkTestElement.moduleImports : List String := []

end Unnamed

/-! ## Class bodies and module imports, as declared in the source -/

/-- A member declared in a JavaScript class body. -/
inductive ClassMember where
  | ctor : ClassMember
  | method (nm : String) : ClassMember
  | getter (nm : String) : ClassMember
  | setter (nm : String) : ClassMember
  | staticMember (nm : String) : ClassMember
deriving DecidableEq, Repr

namespace Demo1

/-- Members of demo1's `class CSSModuleTestElement` body: the constructor only. -/
def CSSModuleTestElement.declaredMembers : List ClassMember := [.ctor]

/-- Members of `class FetchTestElement`'s body: the constructor only. -/
def FetchTestElement.declaredMembers : List ClassMember := [.ctor]

/-- Members of demo1's `class LinkTestElement` body: the constructor only. -/
def LinkTestElement.declaredMembers : List ClassMember := [.ctor]

/-- Members of `class JSONModuleTestElement`'s body: the constructor only. -/
def JSONModuleTestElement.declaredMembers : List ClassMember := [.ctor]

/-- Members of `class StyleTestElement`'s body: the constructor only. -/
def StyleTestElement.declaredMembers : List ClassMember := [.ctor]

end Demo1

namespace Demo2

/-- Members of `class CSSModuleCatElement`'s body: the constructor only. -/
def CSSModuleCatElement.declaredMembers : List ClassMember := [.ctor]

/-- Members of demo2's `class CSSModuleTestElement` body: the constructor only. -/
def CSSModuleTestElement.declaredMembers : List ClassMember := [.ctor]

end Demo2

namespace Unnamed

/-- Members of the unnamed `class CSSModuleTestElement` body: the
constructor only. -/
def CSSModuleTestElement.declaredMembers : List ClassMember := [.ctor]

/-- Members of the unnamed `class LinkTestElement` body: the constructor
only. -/
def LinkTestElement.declaredMembers : List ClassMember := [.ctor]

end Unnamed

/-- The import lists of every JavaScript module in the repository, one entry
per module, each specifier exactly as written at the top of its file. -/
def allModuleImports : List (List String) :=
  [ Demo1.CSSModuleTestElement.moduleImports
  , Demo1.FetchTestElement.moduleImports
  , Demo1.LinkTestElement.moduleImports
  , Demo1.JSONModuleTestElement.moduleImports
  , Demo1.StyleTestElement.moduleImports
  , Demo2.CSSModuleCatElement.moduleImports
  , Demo2.CSSModuleTestElement.moduleImports
  , Unnamed.CSSModuleTestElement.moduleImports
  , Unnamed.LinkTestElement.moduleImports ]

/-- The text a shadow root visibly renders: its concatenated text content
with whitespace collapsed, as the engine renders text nodes under default
white-space handling. -/
def ShadowRoot.visibleText (sr : ShadowRoot) : String :=
  collapseWs (NodeList.textContent sr.children)

/-- The styling requirement of a shadow root is met either through adopted
stylesheet objects or through a style-bearing element in its markup. -/
def ShadowRoot.hasStylesheet (sr : ShadowRoot) : Bool :=
  !sr.adoptedStyleSheets.isEmpty || NodeList.containsStyleElem sr.children

/-- Is a sibling list empty? -/
def NodeList.isNil : NodeList → Bool
  | .nil => true
  | .cons _ _ => false

/-! ## Helper lemmas about repeated construction -/

/-- Repeated construction with an effect-free constructor yields `n` copies
of the one instance and leaves the world untouched. -/
theorem constructN_const (f : World → ElementInstance × World) (e0 : ElementInstance)
    (hf : ∀ w, f w = (e0, w)) :
    ∀ (n : Nat) (w : World), constructN f n w = (List.replicate n e0, w) := by
  intro n
  induction n with
  | zero => intro w; simp [constructN]
  | succ n ih =>
    intro w
    simp only [constructN, hf, ih, List.replicate_succ]

/-- Repeated construction with a constructor that allocates exactly one
stylesheet object per call: the `i`-th instance holds the sheet with
identity `w.sheets.length + i`, the final world has `n` more sheet objects,
the fetch count is untouched, and the continuation count grows by the
constructor's per-call contribution `k`. -/
theorem constructN_alloc (f : World → ElementInstance × World)
    (inst : Nat → ElementInstance) (rules : String) (k : Nat)
    (hf : ∀ w, f w =
      (inst w.sheets.length,
       { w with sheets := w.sheets ++ [rules],
                configContinuations := w.configContinuations + k })) :
    ∀ (n : Nat) (w : World),
      (constructN f n w).1 = (List.range n).map (fun i => inst (w.sheets.length + i)) ∧
      (constructN f n w).2.sheets.length = w.sheets.length + n ∧
      (constructN f n w).2.fetchCount = w.fetchCount ∧
      (constructN f n w).2.configContinuations = w.configContinuations + n * k := by
  intro n
  induction n with
  | zero => intro w; simp [constructN]
  | succ n ih =>
    intro w
    obtain ⟨ih1, ih2, ih3, ih4⟩ :=
      ih { w with sheets := w.sheets ++ [rules],
                  configContinuations := w.configContinuations + k }
    refine ⟨?_, ?_, ?_, ?_⟩
    · simp only [constructN, hf, ih1]
      rw [List.range_succ_eq_map, List.map_cons, List.map_map]
      refine congrArg₂ List.cons (by simp) ?_
      refine congrArg (fun g => List.map g (List.range n)) ?_
      funext i
      simp only [Function.comp, List.length_append, List.length_cons,
        List.length_nil, Nat.succ_eq_add_one]
      exact congrArg inst (by omega)
    · simp only [constructN, hf, ih2]
      simp only [List.length_append, List.length_cons, List.length_nil]
      omega
    · simp only [constructN, hf, ih3]
    · simp only [constructN, hf, ih4]
      ring

/-! ## Claim theorems -/

/-- The three-step contract every constructor in the repository follows:
an attached (closed) shadow root, style content on that root (adopted
stylesheet objects or a style-bearing element in the markup), and literal
HTML assigned to the root. -/
def constructorContractOK (e : ElementInstance) : Prop :=
  e.shadow.mode = ShadowMode.closed ∧
  e.shadow.hasStylesheet = true ∧
  e.shadow.children.isNil = false

/-- C1: every custom-element class defined in the repository's JavaScript
source files (FetchTestElement, CSSModuleTestElement in all three variants,
LinkTestElement in both variants, JSONModuleTestElement, StyleTestElement,
CSSModuleCatElement) has a constructor that (a) attaches a shadow root,
(b) sets or fetches style content (an adopted stylesheet object or a
style or stylesheet-link element), and (c) assigns literal HTML to that
shadow root. -/
theorem c1_every_constructor_attaches_shadow_style_and_markup :
    ∀ (sheet : Nat) (cfg : Json) (w : World),
      constructorContractOK (Demo1.CSSModuleTestElement.construct sheet w).1 ∧
      constructorContractOK (Demo1.FetchTestElement.construct w).1 ∧
      constructorContractOK (Demo1.LinkTestElement.construct w).1 ∧
      constructorContractOK (Demo1.JSONModuleTestElement.construct cfg w).1 ∧
      constructorContractOK (Demo1.StyleTestElement.construct w).1 ∧
      constructorContractOK (Demo2.CSSModuleCatElement.construct sheet w).1 ∧
      constructorContractOK (Demo2.CSSModuleTestElement.construct sheet w).1 ∧
      constructorContractOK (Unnamed.CSSModuleTestElement.construct sheet w).1 ∧
      constructorContractOK (Unnamed.LinkTestElement.construct w).1 := by
  intro sheet cfg w
  refine ⟨?_, ?_, ?_, ?_, ?_, ?_, ?_, ?_, ?_⟩ <;> exact ⟨rfl, rfl, rfl⟩

/-- Appending the empty string is the identity (the form in which rendered
text of a single text-node child appears). -/
theorem str_append_empty (s : String) : s ++ "" = s := by
  cases s with
  | mk d => show String.mk (d ++ []) = String.mk d; rw [List.append_nil]

/-- The rendered text of the first node of class `c`, if any. -/
def textOfClass (c : String) (l : NodeList) : Option String :=
  (NodeList.findByClass c l).map Node.textContent

/-- Does a class-body member list consist of a constructor declaration and
nothing else (in particular no custom-element lifecycle callback)? -/
def declaresOnlyCtor (ms : List ClassMember) : Bool :=
  ms.all fun m =>
    m == ClassMember.ctor &&
    m != ClassMember.method "connectedCallback" &&
    m != ClassMember.method "disconnectedCallback" &&
    m != ClassMember.method "adoptedCallback" &&
    m != ClassMember.method "attributeChangedCallback" &&
    m != ClassMember.staticMember "observedAttributes"

/-- C5: every JavaScript module of the repository is a leaf of the module
graph: each of the nine modules' import lists names only `.css` or `.json`
assets, and no import specifier names a JavaScript module. -/
theorem c5_modules_import_only_css_and_json_assets :
    (allModuleImports.all fun l =>
      l.all fun sp =>
        (strEndsWith sp ".css" || strEndsWith sp ".json") && !strEndsWith sp ".js")
      = true ∧
    allModuleImports.length = 9 := by
  exact ⟨by decide, rfl⟩

/-- C6: every custom-element class body in the repository declares a
constructor and nothing else: no method, getter, setter, static member or
custom-element lifecycle callback of its own. -/
theorem c6_class_bodies_declare_only_a_constructor :
    Demo1.CSSModuleTestElement.declaredMembers = [ClassMember.ctor] ∧
    Demo1.FetchTestElement.declaredMembers = [ClassMember.ctor] ∧
    Demo1.LinkTestElement.declaredMembers = [ClassMember.ctor] ∧
    Demo1.JSONModuleTestElement.declaredMembers = [ClassMember.ctor] ∧
    Demo1.StyleTestElement.declaredMembers = [ClassMember.ctor] ∧
    Demo2.CSSModuleCatElement.declaredMembers = [ClassMember.ctor] ∧
    Demo2.CSSModuleTestElement.declaredMembers = [ClassMember.ctor] ∧
    Unnamed.CSSModuleTestElement.declaredMembers = [ClassMember.ctor] ∧
    Unnamed.LinkTestElement.declaredMembers = [ClassMember.ctor] ∧
    (declaresOnlyCtor Demo1.CSSModuleTestElement.declaredMembers &&
     declaresOnlyCtor Demo1.FetchTestElement.declaredMembers &&
     declaresOnlyCtor Demo1.LinkTestElement.declaredMembers &&
     declaresOnlyCtor Demo1.JSONModuleTestElement.declaredMembers &&
     declaresOnlyCtor Demo1.StyleTestElement.declaredMembers &&
     declaresOnlyCtor Demo2.CSSModuleCatElement.declaredMembers &&
     declaresOnlyCtor Demo2.CSSModuleTestElement.declaredMembers &&
     declaresOnlyCtor Unnamed.CSSModuleTestElement.declaredMembers &&
     declaresOnlyCtor Unnamed.LinkTestElement.declaredMembers) = true := by
  refine ⟨rfl, rfl, rfl, rfl, rfl, rfl, rfl, rfl, rfl, by decide⟩

/-- C7: the three CSSModuleTestElement variants (demo1, demo2, unnamed) are
equivalent up to their styling source: each constructor attaches a closed
shadow root, adopts exactly the single module-imported stylesheet, and
renders a shadow root whose visible text is exactly
"This text should be styled". -/
theorem c7_cssmodule_variants_equivalent_up_to_styling_source :
    ∀ (sheet : Nat) (w : World),
      ((Demo1.CSSModuleTestElement.construct sheet w).1.shadow.mode = ShadowMode.closed ∧
       (Demo1.CSSModuleTestElement.construct sheet w).1.shadow.adoptedStyleSheets = [sheet] ∧
       (Demo1.CSSModuleTestElement.construct sheet w).1.shadow.visibleText
         = "This text should be styled") ∧
      ((Demo2.CSSModuleTestElement.construct sheet w).1.shadow.mode = ShadowMode.closed ∧
       (Demo2.CSSModuleTestElement.construct sheet w).1.shadow.adoptedStyleSheets = [sheet] ∧
       (Demo2.CSSModuleTestElement.construct sheet w).1.shadow.visibleText
         = "This text should be styled") ∧
      ((Unnamed.CSSModuleTestElement.construct sheet w).1.shadow.mode = ShadowMode.closed ∧
       (Unnamed.CSSModuleTestElement.construct sheet w).1.shadow.adoptedStyleSheets = [sheet] ∧
       (Unnamed.CSSModuleTestElement.construct sheet w).1.shadow.visibleText
         = "This text should be styled") := by
  intro sheet w
  exact ⟨⟨rfl, rfl, rfl⟩, ⟨rfl, rfl, rfl⟩, ⟨rfl, rfl, rfl⟩⟩

/-- C10: every constructor in the repository attaches its shadow root with
mode "closed", and consequently the host element's `shadowRoot` property is
`null` for every constructed instance; no constructor attaches an open
shadow root. -/
theorem c10_all_shadow_roots_closed_and_unreachable :
    ∀ (sheet : Nat) (cfg : Json) (w : World),
      ((Demo1.CSSModuleTestElement.construct sheet w).1.shadow.mode = ShadowMode.closed ∧
       (Demo1.CSSModuleTestElement.construct sheet w).1.shadowRootProp = none) ∧
      ((Demo1.FetchTestElement.construct w).1.shadow.mode = ShadowMode.closed ∧
       (Demo1.FetchTestElement.construct w).1.shadowRootProp = none) ∧
      ((Demo1.LinkTestElement.construct w).1.shadow.mode = ShadowMode.closed ∧
       (Demo1.LinkTestElement.construct w).1.shadowRootProp = none) ∧
      ((Demo1.JSONModuleTestElement.construct cfg w).1.shadow.mode = ShadowMode.closed ∧
       (Demo1.JSONModuleTestElement.construct cfg w).1.shadowRootProp = none) ∧
      ((Demo1.StyleTestElement.construct w).1.shadow.mode = ShadowMode.closed ∧
       (Demo1.StyleTestElement.construct w).1.shadowRootProp = none) ∧
      ((Demo2.CSSModuleCatElement.construct sheet w).1.shadow.mode = ShadowMode.closed ∧
       (Demo2.CSSModuleCatElement.construct sheet w).1.shadowRootProp = none) ∧
      ((Demo2.CSSModuleTestElement.construct sheet w).1.shadow.mode = ShadowMode.closed ∧
       (Demo2.CSSModuleTestElement.construct sheet w).1.shadowRootProp = none) ∧
      ((Unnamed.CSSModuleTestElement.construct sheet w).1.shadow.mode = ShadowMode.closed ∧
       (Unnamed.CSSModuleTestElement.construct sheet w).1.shadowRootProp = none) ∧
      ((Unnamed.LinkTestElement.construct w).1.shadow.mode = ShadowMode.closed ∧
       (Unnamed.LinkTestElement.construct w).1.shadowRootProp = none) := by
  intro sheet cfg w
  refine ⟨?_, ?_, ?_, ?_, ?_, ?_, ?_, ?_, ?_⟩ <;> exact ⟨rfl, rfl⟩

/-- C3: at most one `fetch()` call is evaluated per page load in any source
file: the fetch in fetcherElement.js runs once at module evaluation, and
constructing any number `n` of FetchTestElement instances leaves the fetch
count at that single call while attaching `n` continuations to the
module-level promise; no other constructor in the repository ever changes
the fetch count. -/
theorem c3_at_most_one_fetch_per_page_load :
    ∀ (n : Nat) (w : World) (sheet : Nat) (cfg : Json),
      (constructN Demo1.FetchTestElement.construct n
        (Demo1.evalFetcherModuleTopLevel w)).2.fetchCount = w.fetchCount + 1 ∧
      (constructN Demo1.FetchTestElement.construct n
        (Demo1.evalFetcherModuleTopLevel w)).2.configContinuations
        = w.configContinuations + n ∧
      Demo1.FetchTestElement.topLevelFetchCalls = 1 ∧
      (Demo1.CSSModuleTestElement.construct sheet w).2.fetchCount = w.fetchCount ∧
      (Demo1.FetchTestElement.construct w).2.fetchCount = w.fetchCount ∧
      (Demo1.LinkTestElement.construct w).2.fetchCount = w.fetchCount ∧
      (Demo1.JSONModuleTestElement.construct cfg w).2.fetchCount = w.fetchCount ∧
      (Demo1.StyleTestElement.construct w).2.fetchCount = w.fetchCount ∧
      (Demo2.CSSModuleCatElement.construct sheet w).2.fetchCount = w.fetchCount ∧
      (Demo2.CSSModuleTestElement.construct sheet w).2.fetchCount = w.fetchCount ∧
      (Unnamed.CSSModuleTestElement.construct sheet w).2.fetchCount = w.fetchCount ∧
      (Unnamed.LinkTestElement.construct w).2.fetchCount = w.fetchCount := by
  intro n w sheet cfg
  obtain ⟨-, -, hfc, hcc⟩ :=
    constructN_alloc Demo1.FetchTestElement.construct Demo1.FetchTestElement.instanceAt
      Demo1.FetchTestElement.sheetRules 1 (fun _ => rfl) n (Demo1.evalFetcherModuleTopLevel w)
  refine ⟨?_, ?_, rfl, rfl, rfl, rfl, rfl, rfl, rfl, rfl, rfl, rfl⟩
  · rw [hfc]; rfl
  · rw [hcc]; show w.configContinuations + n * 1 = w.configContinuations + n
    rw [Nat.mul_one]

/-- C9: all instances of a CSS-module-based class constructed from the same
loaded module share the single imported stylesheet object (identity
`w.sheets.length`, allocated once by the module load) in a length-one
`adoptedStyleSheets` array, and constructing `n` instances allocates no
further stylesheet object; whereas each FetchTestElement and each
JSONModuleTestElement instance constructs its own fresh `CSSStyleSheet`, so
`n` constructions allocate `n` distinct sheet objects with consecutive
identities. -/
theorem c9_module_sheets_shared_constructed_sheets_fresh :
    ∀ (assetRules : String) (n : Nat) (w : World) (cfg : Json),
      constructN (Demo1.CSSModuleTestElement.construct (loadCssModule assetRules w).1) n
          (loadCssModule assetRules w).2
        = (List.replicate n (Demo1.CSSModuleTestElement.instanceAt w.sheets.length),
           (loadCssModule assetRules w).2) ∧
      constructN (Demo2.CSSModuleCatElement.construct (loadCssModule assetRules w).1) n
          (loadCssModule assetRules w).2
        = (List.replicate n (Demo2.CSSModuleCatElement.instanceAt w.sheets.length),
           (loadCssModule assetRules w).2) ∧
      constructN (Demo2.CSSModuleTestElement.construct (loadCssModule assetRules w).1) n
          (loadCssModule assetRules w).2
        = (List.replicate n (Demo2.CSSModuleTestElement.instanceAt w.sheets.length),
           (loadCssModule assetRules w).2) ∧
      constructN (Unnamed.CSSModuleTestElement.construct (loadCssModule assetRules w).1) n
          (loadCssModule assetRules w).2
        = (List.replicate n (Unnamed.CSSModuleTestElement.instanceAt w.sheets.length),
           (loadCssModule assetRules w).2) ∧
      (loadCssModule assetRules w).2.sheets.length = w.sheets.length + 1 ∧
      (∀ s : Nat, (Demo1.CSSModuleTestElement.instanceAt s).shadow.adoptedStyleSheets = [s]) ∧
      (∀ s : Nat, (Demo1.FetchTestElement.instanceAt s).shadow.adoptedStyleSheets = [s]) ∧
      (constructN Demo1.FetchTestElement.construct n w).1
        = (List.range n).map (fun i => Demo1.FetchTestElement.instanceAt (w.sheets.length + i)) ∧
      (constructN Demo1.FetchTestElement.construct n w).2.sheets.length = w.sheets.length + n ∧
      (constructN (Demo1.JSONModuleTestElement.construct cfg) n w).1
        = (List.range n).map (fun i =>
            Demo1.JSONModuleTestElement.instanceAt (w.sheets.length + i)
              (Demo1.JSONModuleTestElement.displayTextOf cfg)) ∧
      (constructN (Demo1.JSONModuleTestElement.construct cfg) n w).2.sheets.length
        = w.sheets.length + n := by
  intro assetRules n w cfg
  have h1 := constructN_const (Demo1.CSSModuleTestElement.construct (loadCssModule assetRules w).1)
    (Demo1.CSSModuleTestElement.instanceAt w.sheets.length) (fun _ => rfl) n
    (loadCssModule assetRules w).2
  have h2 := constructN_const (Demo2.CSSModuleCatElement.construct (loadCssModule assetRules w).1)
    (Demo2.CSSModuleCatElement.instanceAt w.sheets.length) (fun _ => rfl) n
    (loadCssModule assetRules w).2
  have h3 := constructN_const (Demo2.CSSModuleTestElement.construct (loadCssModule assetRules w).1)
    (Demo2.CSSModuleTestElement.instanceAt w.sheets.length) (fun _ => rfl) n
    (loadCssModule assetRules w).2
  have h4 := constructN_const (Unnamed.CSSModuleTestElement.construct (loadCssModule assetRules w).1)
    (Unnamed.CSSModuleTestElement.instanceAt w.sheets.length) (fun _ => rfl) n
    (loadCssModule assetRules w).2
  obtain ⟨hf1, hf2, -, -⟩ :=
    constructN_alloc Demo1.FetchTestElement.construct Demo1.FetchTestElement.instanceAt
      Demo1.FetchTestElement.sheetRules 1 (fun _ => rfl) n w
  obtain ⟨hj1, hj2, -, -⟩ :=
    constructN_alloc (Demo1.JSONModuleTestElement.construct cfg)
      (fun i => Demo1.JSONModuleTestElement.instanceAt i
        (Demo1.JSONModuleTestElement.displayTextOf cfg))
      Demo1.JSONModuleTestElement.sheetRules 0 (fun _ => rfl) n w
  refine ⟨h1, h2, h3, h4, ?_, fun _ => rfl, fun _ => rfl, hf1, hf2, hj1, hj2⟩
  simp [loadCssModule, allocSheet]

/-- Where the text-container query lands in `FetchTestElement`'s
synchronously-assigned shadow tree. -/
theorem fetch_find_text_container :
    NodeList.findByClass "text-container" Demo1.FetchTestElement.shadowChildren
      = some (Node.elem "div" [("class", "text-container")] NodeList.nil) := rfl

/-- Settling `configPromise` successfully with a parseable body whose
config's `displayText` access does not throw runs the continuation to
completion: the coerced `displayText` is written into the text container
and no error escapes. -/
theorem fetch_react_success (parse : String → Option Json) (body : String) (cfg : Json)
    {v : Option Json} (h1 : parse body = some cfg)
    (h2 : cfg.get "displayText" = Except.ok v) :
    Demo1.FetchTestElement.reactToConfig parse Demo1.FetchTestElement.shadowChildren
        (Demo1.FetchOutcome.success body)
      = { children := (NodeList.setTextByClass "text-container" (jsToDOMStringOpt v)
            Demo1.FetchTestElement.shadowChildren).1
          wroteText := some (jsToDOMStringOpt v)
          error := none } := by
  simp only [Demo1.FetchTestElement.reactToConfig, h1, h2, fetch_find_text_container]

/-- After the continuation writes `s`, the text container renders exactly
`s`. -/
theorem fetch_text_after_set (s : String) :
    textOfClass "text-container"
      (NodeList.setTextByClass "text-container" s Demo1.FetchTestElement.shadowChildren).1
      = some s := by
  have h : textOfClass "text-container"
      (NodeList.setTextByClass "text-container" s Demo1.FetchTestElement.shadowChildren).1
      = some (s ++ "") := rfl
  rw [h, str_append_empty]

/-- The interpolated `JSONModuleTestElement` tree renders exactly the
interpolated value in its text container. -/
theorem json_text_of_children (s : String) :
    textOfClass "text-container" (Demo1.JSONModuleTestElement.shadowChildren s) = some s := by
  have h : textOfClass "text-container" (Demo1.JSONModuleTestElement.shadowChildren s)
      = some (s ++ "") := rfl
  rw [h, str_append_empty]

/-- C2: no operation in the repository installs a rejection handler or
guards `JSON.parse`: every `.then` in fetcherElement.js fills only the
fulfillment slot, and on a fetch rejection, or on a fulfillment whose body
fails to parse, the constructed element's shadow children stay exactly as
the constructor set them and the error escapes to the host unhandled. -/
theorem c2_failures_unhandled_and_shadow_untouched :
    (Demo1.configPromiseChainReactions.all fun r => !r.hasRejectHandler) = true ∧
    Demo1.FetchTestElement.configReaction.hasRejectHandler = false ∧
    (∀ (w : World) (parse : String → Option Json),
      Demo1.FetchTestElement.reactToConfig parse
          (Demo1.FetchTestElement.construct w).1.shadow.children Demo1.FetchOutcome.failure
        = { children := (Demo1.FetchTestElement.construct w).1.shadow.children
            wroteText := none
            error := some Demo1.ReactError.fetchRejected }) ∧
    (∀ (w : World) (parse : String → Option Json) (body : String),
      parse body = none →
      Demo1.FetchTestElement.reactToConfig parse
          (Demo1.FetchTestElement.construct w).1.shadow.children
          (Demo1.FetchOutcome.success body)
        = { children := (Demo1.FetchTestElement.construct w).1.shadow.children
            wroteText := none
            error := some Demo1.ReactError.parseError }) := by
  refine ⟨rfl, rfl, fun w parse => rfl, ?_⟩
  intro w parse body h
  simp only [Demo1.FetchTestElement.reactToConfig, h]

/-- Witness for C2: with a parse function that rejects every body, the
successful settlement of the fetch leaves the constructed shadow untouched
and the error unhandled. -/
theorem c2_witness :
    ((fun _ : String => (none : Option Json)) "not json") = none ∧
    Demo1.FetchTestElement.reactToConfig (fun _ : String => (none : Option Json))
        (Demo1.FetchTestElement.construct World.init).1.shadow.children
        (Demo1.FetchOutcome.success "not json")
      = { children := (Demo1.FetchTestElement.construct World.init).1.shadow.children
          wroteText := none
          error := some Demo1.ReactError.parseError } :=
  ⟨rfl, c2_failures_unhandled_and_shadow_untouched.2.2.2 World.init
    (fun _ : String => (none : Option Json)) "not json" rfl⟩

/-- C8: for every `FetchTestElement` instance the constructor has already
placed a div of class "text-container" into the shadow before the
continuation is registered, so the `querySelector(".text-container")` call
in the continuation never returns null, and across every settlement and
every parse outcome the error (if any) escaping the continuation is never
the null-target TypeError of the `innerText` assignment: that branch is
unreachable.  (A body parsing to `null` still throws — but at the
`displayTextConfig.displayText` access, a different error source.) -/
theorem c8_text_container_query_never_null :
    ∀ (w : World),
      (NodeList.findByClass "text-container"
        (Demo1.FetchTestElement.construct w).1.shadow.children).isSome = true ∧
      (∀ (parse : String → Option Json) (o : Demo1.FetchOutcome),
        ((Demo1.FetchTestElement.reactToConfig parse
            (Demo1.FetchTestElement.construct w).1.shadow.children o).error
          == some Demo1.ReactError.nullQueryTypeError) = false) := by
  intro w
  refine ⟨rfl, ?_⟩
  intro parse o
  cases o with
  | failure => rfl
  | success body =>
    cases hp : parse body with
    | none =>
      simp only [Demo1.FetchTestElement.reactToConfig, hp]
      rfl
    | some cfg =>
      cases hg : cfg.get "displayText" with
      | error e =>
        simp only [Demo1.FetchTestElement.reactToConfig, hp, hg]
        rfl
      | ok v =>
        simp only [Demo1.FetchTestElement.reactToConfig, hp, hg]
        rfl

/-- C4: JSON configuration blobs are consumed verbatim: when the fetched
body parses to a config whose `displayText` access yields the string `s`,
the `FetchTestElement` continuation writes exactly `s` into the text
container; a `JSONModuleTestElement` constructed from a config whose
`displayText` access yields `s` (with `s` markup-inert, so the HTML parser
keeps it one text node) renders exactly `s` and registers no continuation;
and every `FetchTestElement` instance performs exactly one initial render
followed by at most one text patch from the single one-shot continuation,
with no further update. -/
theorem c4_config_consumed_verbatim_single_render_pass :
    (∀ (parse : String → Option Json) (body : String) (cfg : Json) (s : String),
      parse body = some cfg →
      cfg.get "displayText" = Except.ok (some (Json.str s)) →
      (Demo1.FetchTestElement.reactToConfig parse Demo1.FetchTestElement.shadowChildren
        (Demo1.FetchOutcome.success body)).wroteText = some s ∧
      textOfClass "text-container"
        (Demo1.FetchTestElement.reactToConfig parse Demo1.FetchTestElement.shadowChildren
          (Demo1.FetchOutcome.success body)).children = some s) ∧
    (∀ (cfg : Json) (s : String) (w : World),
      cfg.get "displayText" = Except.ok (some (Json.str s)) →
      htmlInert s = true →
      textOfClass "text-container"
        (Demo1.JSONModuleTestElement.construct cfg w).1.shadow.children = some s ∧
      (Demo1.JSONModuleTestElement.construct cfg w).2.configContinuations
        = w.configContinuations) ∧
    (∀ (parse : String → Option Json) (outcome : Option Demo1.FetchOutcome),
      ∃ rest,
        Demo1.FetchTestElement.renderTrace parse Demo1.FetchTestElement.shadowChildren outcome
          = Demo1.RenderEvent.initialRender :: rest ∧ rest.length ≤ 1) ∧
    (∀ (parse : String → Option Json) (body : String) (cfg : Json) (s : String),
      parse body = some cfg →
      cfg.get "displayText" = Except.ok (some (Json.str s)) →
      Demo1.FetchTestElement.renderTrace parse Demo1.FetchTestElement.shadowChildren
          (some (Demo1.FetchOutcome.success body))
        = [Demo1.RenderEvent.initialRender, Demo1.RenderEvent.textUpdate s]) := by
  refine ⟨?_, ?_, ?_, ?_⟩
  · intro parse body cfg s h1 h2
    rw [fetch_react_success parse body cfg h1 h2]
    exact ⟨rfl, fetch_text_after_set s⟩
  · intro cfg s w h2 hinert
    refine ⟨?_, rfl⟩
    have hd : Demo1.JSONModuleTestElement.displayTextOf cfg = s := by
      simp only [Demo1.JSONModuleTestElement.displayTextOf, h2, jsToDOMStringOpt, jsToDOMString]
    rw [show (Demo1.JSONModuleTestElement.construct cfg w).1.shadow.children
        = Demo1.JSONModuleTestElement.shadowChildren
            (Demo1.JSONModuleTestElement.displayTextOf cfg) from rfl, hd]
    exact json_text_of_children s
  · intro parse outcome
    cases outcome with
    | none => exact ⟨[], rfl, by simp⟩
    | some o =>
      cases h : (Demo1.FetchTestElement.reactToConfig parse
          Demo1.FetchTestElement.shadowChildren o).wroteText with
      | none =>
        exact ⟨[], by simp only [Demo1.FetchTestElement.renderTrace, h], by simp⟩
      | some s =>
        exact ⟨[Demo1.RenderEvent.textUpdate s],
          by simp only [Demo1.FetchTestElement.renderTrace, h], by simp⟩
  · intro parse body cfg s h1 h2
    simp only [Demo1.FetchTestElement.renderTrace, fetch_react_success parse body cfg h1 h2]
    rfl

/-- Witness for C4: a concrete configuration object, consumed by both the
fetch continuation and the JSON-module constructor. -/
theorem c4_witness :
    (Json.obj (JsonFields.cons "displayText" (Json.str "Hello from JSON")
        JsonFields.nil)).get "displayText"
        = Except.ok (some (Json.str "Hello from JSON")) ∧
    htmlInert "Hello from JSON" = true ∧
    ((fun _ : String => some (Json.obj (JsonFields.cons "displayText"
        (Json.str "Hello from JSON") JsonFields.nil))) "body")
        = some (Json.obj (JsonFields.cons "displayText" (Json.str "Hello from JSON")
            JsonFields.nil)) ∧
    (textOfClass "text-container"
        (Demo1.JSONModuleTestElement.construct
          (Json.obj (JsonFields.cons "displayText" (Json.str "Hello from JSON")
            JsonFields.nil)) World.init).1.shadow.children
      = some "Hello from JSON" ∧
     (Demo1.JSONModuleTestElement.construct
        (Json.obj (JsonFields.cons "displayText" (Json.str "Hello from JSON")
          JsonFields.nil))
        World.init).2.configContinuations = World.init.configContinuations) ∧
    Demo1.FetchTestElement.renderTrace
        (fun _ : String => some (Json.obj (JsonFields.cons "displayText"
          (Json.str "Hello from JSON") JsonFields.nil)))
        Demo1.FetchTestElement.shadowChildren
        (some (Demo1.FetchOutcome.success "body"))
      = [Demo1.RenderEvent.initialRender,
         Demo1.RenderEvent.textUpdate "Hello from JSON"] :=
  ⟨rfl, rfl, rfl,
    c4_config_consumed_verbatim_single_render_pass.2.1
      (Json.obj (JsonFields.cons "displayText" (Json.str "Hello from JSON")
        JsonFields.nil)) "Hello from JSON"
      World.init rfl rfl,
    c4_config_consumed_verbatim_single_render_pass.2.2.2
      (fun _ : String => some (Json.obj (JsonFields.cons "displayText"
        (Json.str "Hello from JSON") JsonFields.nil)))
      "body" (Json.obj (JsonFields.cons "displayText" (Json.str "Hello from JSON")
        JsonFields.nil))
      "Hello from JSON" rfl rfl⟩
